import Mathlib

/-!
# The debug bridge of `dllmain.cpp`

The translation unit `src/dllmain.cpp` holds two pieces of code:

* `TagLib_Nuget::DebugListner::printMessage`, compiled only under `_DEBUG`, which hands
  `msg.toCWString()` to `::OutputDebugStringW`;
* the entry point `DllMain`, whose `switch` over the reason code is compiled only under
  `_DEBUG` and which ends in `return TRUE;`.

Both are embedded below as functions over an explicit `World`: the global debug-listener
slot of the tagging library together with the record of what was handed to the debug-output
facility of the operating system.  The preprocessor symbol `_DEBUG` is a `Bool` argument.
-/

namespace TagLib_Nuget

/-! ## Platform types and constants -/

/-- The 32-bit reason-code word; no arithmetic is done on it, only comparison. -/
abbrev DWORD := Nat

/-- The module handle, first argument of the entry point (unnamed and unused there). -/
abbrev HMODULE := Nat

/-- The reserved pointer, third argument of the entry point (unnamed and unused there). -/
abbrev LPVOID := Nat

/-- The platform boolean, an integer. -/
abbrev BOOL := Int

/-- One wide character. -/
abbrev wchar_t := Nat

/-- A wide-character string as handed to the debug-output facility. -/
abbrev LPCWSTR := List wchar_t

/-- Modelled from the spec: the header `windows.h` is not in the repository.  The success
flag the entry point reports to the loader. -/
def TRUE : BOOL := 1

/-- Modelled from the spec: the header `windows.h` is not in the repository.  The spec names
a closed set of four reason codes; the number is the one the platform header gives to
process-attach.  The theorems use only that the four numbers are pairwise distinct. -/
def DLL_PROCESS_ATTACH : DWORD := 1

/-- Modelled from the spec: the header `windows.h` is not in the repository.  The reason code
thread-attach. -/
def DLL_THREAD_ATTACH : DWORD := 2

/-- Modelled from the spec: the header `windows.h` is not in the repository.  The reason code
thread-detach. -/
def DLL_THREAD_DETACH : DWORD := 3

/-- Modelled from the spec: the header `windows.h` is not in the repository.  The reason code
process-detach. -/
def DLL_PROCESS_DETACH : DWORD := 0

/-! ## The world the code acts on -/

/-- A value of type `TagLib::DebugListener *`: the null pointer, the address of the one
static object `TagLib_Nuget::listener`, or the address of some other listener object. -/
inductive DebugListenerPtr where
  | NULL
  | listener
  | foreign (addr : Nat)
  deriving DecidableEq, Repr

/-- Everything the translation unit reads or writes outside itself. -/
structure World where
  /-- The global debug-listener slot of the tagging library. -/
  debugListener : DebugListenerPtr
  /-- The arguments of the calls made to the debug-output facility, oldest first. -/
  debugCalls : List LPCWSTR
  /-- The strings a debugger actually observed, oldest first. -/
  debuggerLog : List LPCWSTR
  deriving DecidableEq, Repr

/-- Modelled from the spec: `TagLib::setDebugListener` belongs to the external tagging
library, not to this repository.  The spec describes it as "set global debug listener
(accepts a pointer to a listener or empty to clear)": the slot takes the pointer given. -/
def setDebugListener (p : DebugListenerPtr) (w : World) : World :=
  { w with debugListener := p }

/-- Modelled from the spec: `::OutputDebugStringW` belongs to the operating system.  Each
call is recorded with its argument.  Whether the string reaches a debugger is decided by
the oracle `os`; the call has result type `void`, so that outcome is not reported to the
caller ("if the OS call fails, the message is simply not observed"). -/
def OutputDebugStringW (os : LPCWSTR → Bool) (lpOutputString : LPCWSTR) (w : World) : World :=
  { w with
    debugCalls := w.debugCalls ++ [lpOutputString]
    debuggerLog :=
      if os lpOutputString then w.debuggerLog ++ [lpOutputString] else w.debuggerLog }

/-! ## `DebugListner::printMessage` -/

/-- What a call can raise to its caller. -/
inductive Failure where
  | raised
  deriving DecidableEq, Repr

/-- The body of `DebugListner::printMessage` (a `void` member function):
`::OutputDebugStringW(msg.toCWString());`.  The message type of the tagging library and its
conversion `toCWString` are arguments.  The result is `.ok` of the world after the call;
`.error` would be a failure raised to the caller, which the single statement never does. -/
def printMessage {TString : Type} (toCWString : TString → LPCWSTR) (os : LPCWSTR → Bool)
    (msg : TString) (w : World) : Except Failure World :=
  .ok (OutputDebugStringW os (toCWString msg) w)

/-! ## `DllMain` -/

/-- The entry point `DllMain(HMODULE, DWORD ul_reason_for_call, LPVOID)`.  With `_DEBUG`
the `switch` runs: it has the four cases and no default; without `_DEBUG` the body is only
`return TRUE;`.  The result is the returned flag and the world after the call. -/
def DllMain (_DEBUG : Bool) (_hModule : HMODULE) (ul_reason_for_call : DWORD)
    (_lpReserved : LPVOID) (w : World) : BOOL × World :=
  let w1 :=
    if _DEBUG then
      if ul_reason_for_call = DLL_PROCESS_ATTACH then
        setDebugListener DebugListenerPtr.listener w
      else if ul_reason_for_call = DLL_THREAD_ATTACH then
        w
      else if ul_reason_for_call = DLL_THREAD_DETACH then
        w
      else if ul_reason_for_call = DLL_PROCESS_DETACH then
        setDebugListener DebugListenerPtr.NULL w
      else
        w
    else
      w
  (TRUE, w1)

/-! ## Sequences of loader notifications -/

/-- One invocation of the entry point by the loader: its three arguments. -/
structure Invocation where
  hModule : HMODULE
  ul_reason_for_call : DWORD
  lpReserved : LPVOID
  deriving DecidableEq, Repr

/-- The loader delivers notifications one after the other; each runs `DllMain` on the
world the previous one left. -/
def deliver (_DEBUG : Bool) : List Invocation → World → World
  | [], w => w
  | c :: cs, w =>
    deliver _DEBUG cs (DllMain _DEBUG c.hModule c.ul_reason_for_call c.lpReserved w).2

/-- A reason code is a process event when it is process-attach or process-detach. -/
def isProcessEvent (r : DWORD) : Bool :=
  r == DLL_PROCESS_ATTACH || r == DLL_PROCESS_DETACH

/-- A reason code is a thread event when it is thread-attach or thread-detach. -/
def isThreadEvent (r : DWORD) : Bool :=
  r == DLL_THREAD_ATTACH || r == DLL_THREAD_DETACH

/-- The reason code of the last process event of a sequence, if it has one. -/
def lastProcessEvent : List Invocation → Option DWORD
  | [] => none
  | c :: cs =>
    match lastProcessEvent cs with
    | some r => some r
    | none => if isProcessEvent c.ul_reason_for_call then some c.ul_reason_for_call else none

/-- The slot the state-machine reading of the spec predicts after a sequence: the bridge
listener when the last process event is an attach, empty when it is a detach, and the
initial slot when the sequence has no process event. -/
def predictedSlot (initial : DebugListenerPtr) (cs : List Invocation) : DebugListenerPtr :=
  match lastProcessEvent cs with
  | none => initial
  | some r => if r = DLL_PROCESS_ATTACH then DebugListenerPtr.listener else DebugListenerPtr.NULL

/-- A sample conversion used to evaluate the code on concrete messages: the code points of
a string. -/
def codePoints (s : String) : LPCWSTR :=
  s.toList.map Char.toNat

/-! ## Lemmas shared by the results below -/

/-- The slot after one debug-build invocation, by reason code. -/
theorem DllMain_debug_slot (hModule : HMODULE) (r : DWORD) (lpReserved : LPVOID) (w : World) :
    (DllMain true hModule r lpReserved w).2.debugListener
      = if r = DLL_PROCESS_ATTACH then DebugListenerPtr.listener
        else if r = DLL_PROCESS_DETACH then DebugListenerPtr.NULL
        else w.debugListener := by
  unfold DllMain setDebugListener
  by_cases h1 : r = DLL_PROCESS_ATTACH
  · simp [h1]
  · by_cases h2 : r = DLL_THREAD_ATTACH
    · subst h2; simp [DLL_THREAD_ATTACH, DLL_PROCESS_ATTACH, DLL_PROCESS_DETACH]
    · by_cases h3 : r = DLL_THREAD_DETACH
      · subst h3
        simp [DLL_THREAD_DETACH, DLL_THREAD_ATTACH, DLL_PROCESS_ATTACH, DLL_PROCESS_DETACH]
      · by_cases h4 : r = DLL_PROCESS_DETACH
        · subst h4
          simp [DLL_THREAD_DETACH, DLL_THREAD_ATTACH, DLL_PROCESS_ATTACH, DLL_PROCESS_DETACH]
        · simp [h1, h2, h3, h4]

/-- A non-debug invocation returns the world it was given. -/
theorem DllMain_release_world (hModule : HMODULE) (r : DWORD) (lpReserved : LPVOID)
    (w : World) : (DllMain false hModule r lpReserved w).2 = w := by
  simp [DllMain]

/-- A thread event returns the world it was given, in a debug build too. -/
theorem DllMain_thread_world (hModule : HMODULE) (r : DWORD) (lpReserved : LPVOID)
    (w : World) (h : isThreadEvent r = true) :
    (DllMain true hModule r lpReserved w).2 = w := by
  simp only [isThreadEvent, Bool.or_eq_true, beq_iff_eq] at h
  rcases h with h | h <;> subst h <;>
    simp [DllMain, DLL_THREAD_DETACH, DLL_THREAD_ATTACH, DLL_PROCESS_ATTACH]

/-- Non-debug delivery of any sequence returns the world it was given. -/
theorem deliver_release_world (cs : List Invocation) (w : World) :
    deliver false cs w = w := by
  induction cs generalizing w with
  | nil => rfl
  | cons c cs ih => simp [deliver, DllMain_release_world, ih]

/-- Debug delivery of a sequence ends in the slot predicted from its last process event. -/
theorem deliver_debug_slot (cs : List Invocation) (w : World) :
    (deliver true cs w).debugListener = predictedSlot w.debugListener cs := by
  induction cs generalizing w with
  | nil => rfl
  | cons c cs ih =>
    have hstep := DllMain_debug_slot c.hModule c.ul_reason_for_call c.lpReserved w
    simp only [deliver, ih, predictedSlot, lastProcessEvent]
    cases hl : lastProcessEvent cs with
    | some r => rfl
    | none =>
      simp only [hstep, isProcessEvent, Bool.or_eq_true, beq_iff_eq]
      by_cases h1 : c.ul_reason_for_call = DLL_PROCESS_ATTACH
      · simp [h1]
      · by_cases h2 : c.ul_reason_for_call = DLL_PROCESS_DETACH
        · simp [h2, DLL_PROCESS_DETACH, DLL_PROCESS_ATTACH]
        · simp [h1, h2]

/-- Dropping the thread events of a sequence does not change what debug delivery does. -/
theorem deliver_filter_thread (cs : List Invocation) (w : World) :
    deliver true (cs.filter (fun c => !isThreadEvent c.ul_reason_for_call)) w
      = deliver true cs w := by
  induction cs generalizing w with
  | nil => rfl
  | cons c cs ih =>
    by_cases h : isThreadEvent c.ul_reason_for_call = true
    · simp [List.filter_cons, h, deliver, DllMain_thread_world, ih]
    · simp [List.filter_cons, h, deliver, ih]

/-- The recursive `lastProcessEvent` is the last element of the reason codes of the
sequence that are process events. -/
theorem lastProcessEvent_eq_getLast (cs : List Invocation) :
    lastProcessEvent cs
      = ((cs.map (fun c => c.ul_reason_for_call)).filter isProcessEvent).getLast? := by
  induction cs with
  | nil => rfl
  | cons c cs ih =>
    simp only [lastProcessEvent, ih, List.map_cons, List.filter_cons]
    cases hl : ((cs.map (fun c => c.ul_reason_for_call)).filter isProcessEvent).getLast? with
    | none =>
      have hnil : (cs.map (fun c => c.ul_reason_for_call)).filter isProcessEvent = [] := by
        simpa using hl
      by_cases h : isProcessEvent c.ul_reason_for_call = true
      · simp [h, hnil]
      · simp [h, hnil]
    | some r =>
      by_cases h : isProcessEvent c.ul_reason_for_call = true
      · simp only [h, if_true]
        rw [List.getLast?_cons, hl]; rfl
      · simp [h, hl]

/-- The listener evaluated on two messages: the empty one with a debugger that observes,
and one with a non-ASCII character with a debugger that does not. -/
theorem printMessage_samples :
    printMessage codePoints (fun _ => true) "" ⟨DebugListenerPtr.listener, [], []⟩
      = Except.ok ⟨DebugListenerPtr.listener, [[]], [[]]⟩
    ∧ printMessage codePoints (fun _ => false) "né" ⟨DebugListenerPtr.listener, [], []⟩
      = Except.ok ⟨DebugListenerPtr.listener, [[110, 233]], []⟩ := by
  constructor <;> rfl

/-- Debug delivery evaluated on one sequence, from a slot that holds a foreign listener. -/
theorem deliver_sample :
    (deliver true
        [⟨0, DLL_THREAD_ATTACH, 0⟩, ⟨0, DLL_PROCESS_ATTACH, 0⟩, ⟨0, 99, 0⟩,
         ⟨0, DLL_PROCESS_DETACH, 0⟩, ⟨0, DLL_THREAD_DETACH, 0⟩]
        ⟨DebugListenerPtr.foreign 7, [], []⟩).debugListener = DebugListenerPtr.NULL
    ∧ (deliver true [⟨0, DLL_THREAD_ATTACH, 0⟩, ⟨0, 99, 0⟩]
        ⟨DebugListenerPtr.foreign 7, [], []⟩).debugListener = DebugListenerPtr.foreign 7
    ∧ (deliver false [⟨0, DLL_PROCESS_ATTACH, 0⟩, ⟨0, DLL_PROCESS_DETACH, 0⟩]
        ⟨DebugListenerPtr.foreign 7, [], []⟩).debugListener = DebugListenerPtr.foreign 7 := by
  decide

/-! ## The entry point, one invocation -/

/-- C1: for every reason code, every prior world (so every prior state of the listener
slot) and both build configurations, `DllMain` returns `TRUE`. -/
theorem DllMain_returns_TRUE (_DEBUG : Bool) (hModule : HMODULE) (ul_reason_for_call : DWORD)
    (lpReserved : LPVOID) (w : World) :
    (DllMain _DEBUG hModule ul_reason_for_call lpReserved w).1 = TRUE := by
  rfl

/-- C2: in a debug build, whatever the slot held before, after `DllMain` runs with the
process-attach reason code the slot holds the address of the one static listener. -/
theorem DllMain_process_attach_registers (hModule : HMODULE) (lpReserved : LPVOID)
    (w : World) :
    (DllMain true hModule DLL_PROCESS_ATTACH lpReserved w).2.debugListener
      = DebugListenerPtr.listener := by
  simp [DllMain_debug_slot]

/-- C3: in a debug build, whatever the slot held before, after `DllMain` runs with the
process-detach reason code the slot is empty (the null pointer). -/
theorem DllMain_process_detach_clears (hModule : HMODULE) (lpReserved : LPVOID)
    (w : World) :
    (DllMain true hModule DLL_PROCESS_DETACH lpReserved w).2.debugListener
      = DebugListenerPtr.NULL := by
  simp [DllMain_debug_slot, DLL_PROCESS_DETACH, DLL_PROCESS_ATTACH]

/-- C4: in a debug build, for every value of the reason-code word other than process-attach
and process-detach (the two thread codes and every value outside the four cases), `DllMain`
leaves the slot as it was. -/
theorem DllMain_other_reason_keeps_slot (hModule : HMODULE) (ul_reason_for_call : DWORD)
    (lpReserved : LPVOID) (w : World)
    (hattach : ul_reason_for_call ≠ DLL_PROCESS_ATTACH)
    (hdetach : ul_reason_for_call ≠ DLL_PROCESS_DETACH) :
    (DllMain true hModule ul_reason_for_call lpReserved w).2.debugListener
      = w.debugListener := by
  simp [DllMain_debug_slot, hattach, hdetach]

/-- Witness of C4: the thread-attach code, the thread-detach code and the value 99, which is
none of the four cases, on a slot that holds a foreign listener. -/
theorem DllMain_other_reason_keeps_slot_witness :
    (DllMain true 0 DLL_THREAD_ATTACH 0 ⟨DebugListenerPtr.foreign 7, [], []⟩).2.debugListener
        = DebugListenerPtr.foreign 7
    ∧ (DllMain true 0 DLL_THREAD_DETACH 0 ⟨DebugListenerPtr.listener, [], []⟩).2.debugListener
        = DebugListenerPtr.listener
    ∧ (DllMain true 0 99 0 ⟨DebugListenerPtr.foreign 7, [], []⟩).2.debugListener
        = DebugListenerPtr.foreign 7 :=
  ⟨DllMain_other_reason_keeps_slot 0 DLL_THREAD_ATTACH 0 ⟨DebugListenerPtr.foreign 7, [], []⟩
      (by decide) (by decide),
   DllMain_other_reason_keeps_slot 0 DLL_THREAD_DETACH 0 ⟨DebugListenerPtr.listener, [], []⟩
      (by decide) (by decide),
   DllMain_other_reason_keeps_slot 0 99 0 ⟨DebugListenerPtr.foreign 7, [], []⟩
      (by decide) (by decide)⟩

/-- C5: in a non-debug build, for every reason code, process-attach and process-detach
included, and every prior world, the slot after `DllMain` equals the slot before. -/
theorem DllMain_release_keeps_slot (hModule : HMODULE) (ul_reason_for_call : DWORD)
    (lpReserved : LPVOID) (w : World) :
    (DllMain false hModule ul_reason_for_call lpReserved w).2.debugListener
      = w.debugListener := by
  rw [DllMain_release_world]

/-- C6: registration and clearing are idempotent in a debug build.  Two process-attach
invocations in a row leave the slot that one leaves, namely the address of the one static
listener; two process-detach invocations in a row leave the slot that one leaves, namely
empty. -/
theorem DllMain_attach_detach_idempotent (h1 h2 : HMODULE) (p1 p2 : LPVOID) (w : World) :
    ((DllMain true h2 DLL_PROCESS_ATTACH p2
        (DllMain true h1 DLL_PROCESS_ATTACH p1 w).2).2.debugListener
      = (DllMain true h1 DLL_PROCESS_ATTACH p1 w).2.debugListener
     ∧ (DllMain true h2 DLL_PROCESS_ATTACH p2
        (DllMain true h1 DLL_PROCESS_ATTACH p1 w).2).2.debugListener
      = DebugListenerPtr.listener)
    ∧ ((DllMain true h2 DLL_PROCESS_DETACH p2
        (DllMain true h1 DLL_PROCESS_DETACH p1 w).2).2.debugListener
      = (DllMain true h1 DLL_PROCESS_DETACH p1 w).2.debugListener
     ∧ (DllMain true h2 DLL_PROCESS_DETACH p2
        (DllMain true h1 DLL_PROCESS_DETACH p1 w).2).2.debugListener
      = DebugListenerPtr.NULL) := by
  simp [DllMain_debug_slot, DLL_PROCESS_DETACH, DLL_PROCESS_ATTACH]

/-! ## The entry point, sequences of invocations -/

/-- C7: starting from an empty slot, after every finite sequence of invocations with
arbitrary reason codes, in either build configuration, the slot is empty or holds the
address of the one static listener.  The slot is a single pointer, so it never holds more
than one listener, and it never holds a foreign one. -/
theorem deliver_slot_invariant (_DEBUG : Bool) (cs : List Invocation) (w : World)
    (hempty : w.debugListener = DebugListenerPtr.NULL) :
    (deliver _DEBUG cs w).debugListener = DebugListenerPtr.NULL
      ∨ (deliver _DEBUG cs w).debugListener = DebugListenerPtr.listener := by
  cases _DEBUG with
  | false => left; rw [deliver_release_world]; exact hempty
  | true =>
    rw [deliver_debug_slot, predictedSlot]
    cases lastProcessEvent cs with
    | none => left; exact hempty
    | some r =>
      by_cases hr : r = DLL_PROCESS_ATTACH
      · right; simp [hr]
      · left; simp [hr]

/-- Witness of C7: from an empty slot, a debug-build sequence attach, thread-attach, value
99, detach, attach ends with the static listener in the slot. -/
theorem deliver_slot_invariant_witness :
    (⟨DebugListenerPtr.NULL, [], []⟩ : World).debugListener = DebugListenerPtr.NULL
    ∧ ((deliver true
          [⟨0, DLL_PROCESS_ATTACH, 0⟩, ⟨0, DLL_THREAD_ATTACH, 0⟩, ⟨0, 99, 0⟩,
           ⟨0, DLL_PROCESS_DETACH, 0⟩, ⟨0, DLL_PROCESS_ATTACH, 0⟩]
          ⟨DebugListenerPtr.NULL, [], []⟩).debugListener = DebugListenerPtr.NULL
      ∨ (deliver true
          [⟨0, DLL_PROCESS_ATTACH, 0⟩, ⟨0, DLL_THREAD_ATTACH, 0⟩, ⟨0, 99, 0⟩,
           ⟨0, DLL_PROCESS_DETACH, 0⟩, ⟨0, DLL_PROCESS_ATTACH, 0⟩]
          ⟨DebugListenerPtr.NULL, [], []⟩).debugListener = DebugListenerPtr.listener) :=
  ⟨rfl, deliver_slot_invariant true _ ⟨DebugListenerPtr.NULL, [], []⟩ rfl⟩

/-- C8: in a debug build the slot is driven by the process events alone.  For every initial
world and every finite sequence of invocations the final slot is the one predicted from the
last process event of the sequence: the static listener after an attach, empty after a
detach, the initial slot when there is none.  Removing the thread-attach and thread-detach
invocations from the sequence, wherever they stand, gives the same final world. -/
theorem deliver_driven_by_process_events (cs : List Invocation) (w : World) :
    (deliver true cs w).debugListener = predictedSlot w.debugListener cs
    ∧ deliver true (cs.filter (fun c => !isThreadEvent c.ul_reason_for_call)) w
        = deliver true cs w :=
  ⟨deliver_debug_slot cs w, deliver_filter_thread cs w⟩

/-! ## The listener -/

/-- C9: for every message, `printMessage` returns normally, and in the world it leaves the
record of calls to the debug-output facility has grown by exactly one call, whose argument
is `toCWString` of that message; the slot is unchanged, and the debugger log has changed
only by what that one call delivered. -/
theorem printMessage_forwards_once {TString : Type} (toCWString : TString → LPCWSTR)
    (os : LPCWSTR → Bool) (msg : TString) (w : World) :
    ∃ w1, printMessage toCWString os msg w = Except.ok w1
      ∧ w1.debugCalls = w.debugCalls ++ [toCWString msg]
      ∧ w1.debugListener = w.debugListener
      ∧ w1.debuggerLog
          = if os (toCWString msg) then w.debuggerLog ++ [toCWString msg] else w.debuggerLog :=
  ⟨_, rfl, rfl, rfl, rfl⟩

end TagLib_Nuget
